import Mathlib

/-!
Shallow embedding of the ScrumMood backend's emotion-analysis and suggestion
engine, translated from the repository sources:

* `modules/suggestion_engine/suggestion_generator.py` (class `SuggestionGenerator`)
* `modules/emotion_monitor/emotion_analyzer.py` (class `EmotionAnalyzer`)
* `modules/emotion_monitor/routes.py` (`submit_emotion`)
* `models/emotion.py` (`EmotionType`, `AnalysisSource`, `EmotionData`)

Modelling conventions:

* Python floats are modelled as rationals (`ℚ`); the thresholds and the
  arithmetic appearing in the engine are exact in `ℚ`.
* `statistics.mean` / `statistics.stdev` are modelled by `listMean` and, for
  the standard deviation, by its square: `statistics.stdev` is the sample
  (Bessel-corrected, `n - 1` denominator) standard deviation, which is an
  irrational square root in general.  Every field of the embedding whose
  Python counterpart stores `statistics.stdev(...)` stores the squared value
  (the sample variance, a rational) and is named with the suffix `_sq`; a
  comparison `stdev > c` of the source is modelled as `var > c ^ 2`, which is
  equivalent for the nonnegative thresholds involved because `Real.sqrt` is
  strictly monotone on nonnegatives (lemma `real_sqrt_gt_iff` below).
* `datetime.utcnow().isoformat()` is modelled by an explicit `now : String`
  parameter threaded to every function that stamps its output.
* Python dicts keyed by user id or emotion type are modelled as association
  lists in key-insertion order, which is exactly the iteration order the
  source relies on.
-/

/-- The closed emotion enum of `models/emotion.py` (`class EmotionType`). -/
inductive EmotionType where
  | happy
  | sad
  | angry
  | fear
  | surprise
  | disgust
  | neutral
  | stressed
  | excited
  | confused
deriving DecidableEq, Repr

/-- The string value of each enum member, as in `models/emotion.py`. -/
def EmotionType.val : EmotionType → String
  | .happy => "happy"
  | .sad => "sad"
  | .angry => "angry"
  | .fear => "fear"
  | .surprise => "surprise"
  | .disgust => "disgust"
  | .neutral => "neutral"
  | .stressed => "stressed"
  | .excited => "excited"
  | .confused => "confused"

/-- The analysis-source enum of `models/emotion.py` (`class AnalysisSource`). -/
inductive AnalysisSource where
  | text
  | voice
  | facial
  | manual
deriving DecidableEq, Repr

/-- One classified emotion reading, the part of the `EmotionData` model row
consumed by the suggestion engine and the reflection generator.  `timestamp`
is modelled as a rational (the engine only compares timestamps for
sorting). -/
structure EmotionData where
  user_id : Nat
  emotion_type : EmotionType
  intensity : ℚ
  timestamp : ℚ
deriving DecidableEq, Repr

/-- Models `statistics.mean` on a list of rationals (division by zero in `ℚ`
yields `0`, but every call site guards emptiness exactly as the source
does). -/
def listMean (xs : List ℚ) : ℚ := xs.sum / (xs.length : ℚ)

/-- The Bessel-corrected (sample) variance, i.e. the square of
`statistics.stdev`. -/
def sampleVariance (xs : List ℚ) : ℚ :=
  ((xs.map (fun x => (x - listMean xs) ^ 2)).sum) / ((xs.length : ℚ) - 1)

/-- Models `statistics.stdev(xs) if len(xs) > 1 else 0`, squared: the squared
sample standard deviation, with the emptiness guard of the source. -/
def stdevSq (xs : List ℚ) : ℚ :=
  if 1 < xs.length then sampleVariance xs else 0

-- The threshold table `self.thresholds` of `SuggestionGenerator.__init__`.
namespace Thresholds

def stress_high : ℚ := 7/10

def stress_team_percentage : ℚ := 3/10

def negative_emotions_percentage : ℚ := 2/5

def low_energy_percentage : ℚ := 3/5

def emotional_volatility : ℚ := 1/2

def individual_stress_high : ℚ := 13/20

def individual_negative_high : ℚ := 3/5

def individual_low_energy : ℚ := 7/10

def individual_volatility : ℚ := 2/5

end Thresholds

/-- Membership of `emotion_type` in `[EmotionType.SAD, EmotionType.ANGRY,
EmotionType.STRESSED]`, the negative-emotion test of `_analyze_emotions`. -/
def isNegativeEmotion : EmotionType → Bool
  | .sad => true
  | .angry => true
  | .stressed => true
  | _ => false

/-- Appends a user id if it is not yet present, preserving order: one step of
the `emotion_by_user` dict construction in `_analyze_emotions`. -/
def insertUser (acc : List Nat) (u : Nat) : List Nat :=
  if u ∈ acc then acc else acc ++ [u]

/-- The keys of the `emotion_by_user` dict of `_analyze_emotions`, in
first-occurrence order (Python dict insertion order). -/
def usersInOrder (es : List EmotionData) : List Nat :=
  es.foldl (fun acc e => insertUser acc e.user_id) []

/-- The value list `emotion_by_user[u]`: the observations of user `u` in
stream order. -/
def userEmotions (es : List EmotionData) (u : Nat) : List EmotionData :=
  es.filter (fun e => decide (e.user_id = u))

/-- One step of the `emotion_counts` dict construction used by
`_get_dominant_emotion` and `generate_personal_reflection`. -/
def bumpCount (acc : List (EmotionType × Nat)) (t : EmotionType) :
    List (EmotionType × Nat) :=
  if acc.any (fun p => p.1 == t) then
    acc.map (fun p => if p.1 = t then (p.1, p.2 + 1) else p)
  else
    acc ++ [(t, 1)]

/-- The `emotion_counts` dict: occurrence counts per emotion type, keys in
first-occurrence order. -/
def emotionCounts (es : List EmotionData) : List (EmotionType × Nat) :=
  es.foldl (fun acc e => bumpCount acc e.emotion_type) []

/-- Models `max(emotion_counts, key=emotion_counts.get)`: the first key (in
dict order) attaining the maximal count; `neutral` on the empty dict (that
default is only reachable through `_get_dominant_emotion`'s own guard). -/
def maxCountKey : List (EmotionType × Nat) → EmotionType
  | [] => .neutral
  | p :: rest => (rest.foldl (fun best q => if q.2 > best.2 then q else best) p).1

/-- Models `SuggestionGenerator._get_dominant_emotion`. -/
def dominantEmotion (es : List EmotionData) : EmotionType :=
  if es = [] then .neutral else maxCountKey (emotionCounts es)

/-- The per-user entry of `user_metrics` built by `_analyze_emotions`.
`emotional_volatility_sq` stores the square of the Python
`emotional_volatility` field (see the module comment). -/
structure UserMetrics where
  stress_level : ℚ
  negative_percentage : ℚ
  neutral_percentage : ℚ
  emotional_volatility_sq : ℚ
  emotion_count : Nat
  dominant_emotion : EmotionType
  needs_attention : Bool
deriving DecidableEq, Repr

/-- The per-user metric computation of the `for user_id, user_emotions in
emotion_by_user.items()` loop body of `_analyze_emotions`. -/
def metricsFor (ues : List EmotionData) : UserMetrics :=
  let user_stress_intensities :=
    (ues.filter (fun e => decide (e.emotion_type = .stressed))).map (fun e => e.intensity)
  let avg_stress_intensity : ℚ :=
    if user_stress_intensities ≠ [] then listMean user_stress_intensities else 0
  let negative_percentage : ℚ :=
    if ues ≠ [] then
      ((ues.filter (fun e => isNegativeEmotion e.emotion_type)).length : ℚ) / (ues.length : ℚ)
    else 0
  let neutral_percentage : ℚ :=
    if ues ≠ [] then
      ((ues.filter (fun e => decide (e.emotion_type = .neutral))).length : ℚ) / (ues.length : ℚ)
    else 0
  let user_volatility_sq : ℚ := stdevSq (ues.map (fun e => e.intensity))
  let needs_attention : Bool :=
    if avg_stress_intensity > Thresholds.individual_stress_high then true
    else if negative_percentage > Thresholds.individual_negative_high then true
    else if neutral_percentage > Thresholds.individual_low_energy then true
    else if user_volatility_sq > Thresholds.individual_volatility ^ 2 then true
    else false
  { stress_level := avg_stress_intensity
    negative_percentage := negative_percentage
    neutral_percentage := neutral_percentage
    emotional_volatility_sq := user_volatility_sq
    emotion_count := ues.length
    dominant_emotion := dominantEmotion ues
    needs_attention := needs_attention }

/-- An entry of the `high_stress_users` list of `_analyze_emotions`. -/
structure HighStressUser where
  user_id : Nat
  stress_level : ℚ
  emotion_count : Nat
deriving DecidableEq, Repr

/-- The analysis dict returned by `SuggestionGenerator._analyze_emotions`.
`emotional_volatility_sq` stores the square of the Python field (see the
module comment); `user_metrics` is an association list in user
first-occurrence order, matching dict iteration order. -/
structure Analysis where
  total_emotions : Nat
  unique_users : Nat
  stress_count : Nat
  negative_count : Nat
  neutral_count : Nat
  negative_percentage : ℚ
  low_energy_percentage : ℚ
  high_stress_users : List HighStressUser
  emotional_volatility_sq : ℚ
  average_intensity : ℚ
  user_metrics : List (Nat × UserMetrics)
deriving DecidableEq, Repr

/-- Models `SuggestionGenerator._analyze_emotions`.  The source accumulates
`all_emotions` by appending every observation, so `all_emotions = es`; the
per-user loop iterates `emotion_by_user` in user first-occurrence order,
building `user_metrics` and `high_stress_users` in that order (the
`high_stress_users` append happens exactly when the user's mean stressed
intensity exceeds `individual_stress_high`). -/
def analyzeEmotions (es : List EmotionData) : Analysis :=
  let users := usersInOrder es
  let user_metrics := users.map (fun u => (u, metricsFor (userEmotions es u)))
  let high_stress_users := users.filterMap (fun u =>
    let m := metricsFor (userEmotions es u)
    if m.stress_level > Thresholds.individual_stress_high then
      some { user_id := u, stress_level := m.stress_level, emotion_count := m.emotion_count }
    else none)
  let intensities := es.map (fun e => e.intensity)
  { total_emotions := es.length
    unique_users := users.length
    stress_count := (es.filter (fun e => decide (e.emotion_type = .stressed))).length
    negative_count := (es.filter (fun e => isNegativeEmotion e.emotion_type)).length
    neutral_count := (es.filter (fun e => decide (e.emotion_type = .neutral))).length
    negative_percentage :=
      if es ≠ [] then
        ((es.filter (fun e => isNegativeEmotion e.emotion_type)).length : ℚ) / (es.length : ℚ)
      else 0
    low_energy_percentage :=
      if es ≠ [] then
        ((es.filter (fun e => decide (e.emotion_type = .neutral))).length : ℚ) / (es.length : ℚ)
      else 0
    high_stress_users := high_stress_users
    emotional_volatility_sq := stdevSq intensities
    average_intensity := if intensities ≠ [] then listMean intensities else 0
    user_metrics := user_metrics }

/-- The closed set of suggestion template identifiers, the keys of
`self.suggestion_templates` (the Python key `'break'` is spelled `break_`
because `break` is a Lean keyword; `SugType.val` records the exact source
strings). -/
inductive SugType where
  | break_
  | breathing
  | energizer
  | check_in
  | discussion
  | restructure
  | personal_break
  | stress_management
  | engagement_boost
  | emotional_regulation
  | communication_adjustment
deriving DecidableEq, Repr

/-- The string key of each template, as written in the source dict. -/
def SugType.val : SugType → String
  | .break_ => "break"
  | .breathing => "breathing"
  | .energizer => "energizer"
  | .check_in => "check_in"
  | .discussion => "discussion"
  | .restructure => "restructure"
  | .personal_break => "personal_break"
  | .stress_management => "stress_management"
  | .engagement_boost => "engagement_boost"
  | .emotional_regulation => "emotional_regulation"
  | .communication_adjustment => "communication_adjustment"

/-- One entry of `self.suggestion_templates`.  The `is_personal` key is
present on the individual-level templates in the source but is never read by
the generators (they set the flag explicitly); it is kept here for
faithfulness. -/
structure SuggestionTemplate where
  title : String
  description : String
  default_duration : Nat
  steps : List String
  is_personal : Bool
deriving DecidableEq, Repr

/-- The template table `self.suggestion_templates` of
`SuggestionGenerator.__init__`, verbatim. -/
def suggestionTemplate : SugType → SuggestionTemplate
  | .break_ =>
    { title := "Take a Break"
      description := "Team stress levels are elevated. A short break can help reset and improve focus."
      default_duration := 5
      steps := ["Pause the current discussion",
                "Allow team members to step away from their screens",
                "Encourage light stretching or deep breathing",
                "Return refreshed and focused"]
      is_personal := false }
  | .breathing =>
    { title := "Breathing Exercise"
      description := "Guide the team through a quick breathing exercise to reduce tension."
      default_duration := 2
      steps := ["Ask everyone to sit comfortably",
                "Guide 4-7-8 breathing: inhale for 4, hold for 7, exhale for 8",
                "Repeat 3-4 cycles",
                "Return to the discussion with renewed focus"]
      is_personal := false }
  | .energizer =>
    { title := "Team Energizer"
      description := "Team energy is low. A quick energizing activity can boost engagement."
      default_duration := 3
      steps := ["Choose a quick icebreaker or energizer game",
                "Get everyone to participate actively",
                "Keep it light and fun",
                "Transition back to work topics"]
      is_personal := false }
  | .check_in =>
    { title := "Individual Check-in"
      description := "Some team members may need individual attention. Consider private follow-ups."
      default_duration := 0
      steps := ["Note team members showing signs of distress",
                "Schedule brief 1-on-1 conversations after the meeting",
                "Ask open-ended questions about their well-being",
                "Offer support and resources as needed"]
      is_personal := false }
  | .discussion =>
    { title := "Open Discussion"
      description := "Address team concerns through structured discussion."
      default_duration := 10
      steps := ["Acknowledge that you sense some team tension",
                "Ask for feedback on current processes or challenges",
                "Listen actively and validate concerns",
                "Collaborate on solutions"]
      is_personal := false }
  | .restructure =>
    { title := "Restructure Meeting"
      description := "Consider changing the meeting format to better suit current team needs."
      default_duration := 0
      steps := ["Assess if the current agenda is causing stress",
                "Consider postponing non-urgent items",
                "Focus on essential topics only",
                "Schedule follow-up meetings for complex discussions"]
      is_personal := false }
  | .personal_break =>
    { title := "Take a Personal Break"
      description := "Your stress levels appear elevated. Consider taking a short personal break."
      default_duration := 5
      steps := ["Step away from your screen for a few minutes",
                "Practice deep breathing or stretching",
                "Get a glass of water",
                "Return when you feel more centered"]
      is_personal := true }
  | .stress_management =>
    { title := "Stress Management Technique"
      description := "Try this quick stress management technique to help you regain focus."
      default_duration := 2
      steps := ["Take 5 deep breaths",
                "Identify what's causing your stress",
                "Focus on what you can control",
                "Set a small, achievable goal for the next few minutes"]
      is_personal := true }
  | .engagement_boost =>
    { title := "Boost Your Engagement"
      description := "Your engagement appears to be lower than usual. Here are some ways to reconnect."
      default_duration := 0
      steps := ["Ask a question about the current topic",
                "Share a relevant insight or experience",
                "Take notes to help focus your attention",
                "Consider if there's something specific causing your disengagement"]
      is_personal := true }
  | .emotional_regulation =>
    { title := "Emotional Regulation"
      description := "Your emotions appear to be fluctuating. Try these techniques to find balance."
      default_duration := 0
      steps := ["Label your emotions specifically (not just \"upset\" but \"frustrated\" or \"disappointed\")",
                "Accept your emotions without judgment",
                "Consider the trigger for your emotional response",
                "Choose a constructive way to express your feelings"]
      is_personal := true }
  | .communication_adjustment =>
    { title := "Adjust Your Communication"
      description := "Consider adjusting your communication style to better express your thoughts."
      default_duration := 0
      steps := ["Use \"I\" statements to express your perspective",
                "Be specific about your concerns",
                "Ask clarifying questions",
                "Acknowledge others' viewpoints before sharing yours"]
      is_personal := true }

/-- The `trigger_emotions` snapshot of a suggestion: `_create_suggestion`
snapshots four team-level figures, `_create_personal_suggestion` snapshots
the user's own metrics (volatilities stored squared, see module comment). -/
inductive Trigger where
  | team (total_emotions : Nat) (negative_percentage : ℚ) (stress_count : Nat)
      (emotional_volatility_sq : ℚ)
  | personal (stress_level : ℚ) (negative_percentage : ℚ) (neutral_percentage : ℚ)
      (emotional_volatility_sq : ℚ) (dominant_emotion : EmotionType)
deriving DecidableEq, Repr

/-- The suggestion dict emitted by `_create_suggestion` /
`_create_personal_suggestion`.  `user_id` is `none` for team suggestions
(the key is absent in the source dict) and `some u` for personal ones;
`timestamp` is the `datetime.utcnow().isoformat()` stamp. -/
structure Suggestion where
  type : SugType
  title : String
  description : String
  priority : Nat
  duration : Nat
  steps : List String
  trigger_emotions : Trigger
  affected_users : List Nat
  user_id : Option Nat
  timestamp : String
  is_personal : Bool
deriving DecidableEq, Repr

/-- Models `SuggestionGenerator._create_suggestion`. -/
def createSuggestion (now : String) (suggestion_type : SugType) (priority : Nat)
    (trigger_emotions : Analysis) (affected_users : List Nat) : Suggestion :=
  let template := suggestionTemplate suggestion_type
  { type := suggestion_type
    title := template.title
    description := template.description
    priority := priority
    duration := template.default_duration
    steps := template.steps
    trigger_emotions := .team trigger_emotions.total_emotions
      trigger_emotions.negative_percentage trigger_emotions.stress_count
      trigger_emotions.emotional_volatility_sq
    affected_users := affected_users
    user_id := none
    timestamp := now
    is_personal := false }

/-- Models `SuggestionGenerator._create_personal_suggestion`. -/
def createPersonalSuggestion (now : String) (suggestion_type : SugType)
    (user_id : Nat) (metrics : UserMetrics) (priority : Nat) : Suggestion :=
  let template := suggestionTemplate suggestion_type
  { type := suggestion_type
    title := template.title
    description := template.description
    priority := priority
    duration := template.default_duration
    steps := template.steps
    trigger_emotions := .personal metrics.stress_level metrics.negative_percentage
      metrics.neutral_percentage metrics.emotional_volatility_sq
      metrics.dominant_emotion
    affected_users := [user_id]
    user_id := some user_id
    timestamp := now
    is_personal := true }

/-- The local `stress_percentage` of `_generate_stress_suggestions`:
`stress_count / total_emotions` guarded by emptiness. -/
def stressPercentage (analysis : Analysis) : ℚ :=
  if 0 < analysis.total_emotions then
    (analysis.stress_count : ℚ) / (analysis.total_emotions : ℚ)
  else 0

/-- The `affected_users` list `[user['user_id'] for user in
analysis['high_stress_users']]`. -/
def hsUserIds (analysis : Analysis) : List Nat :=
  analysis.high_stress_users.map (fun u => u.user_id)

/-- Models `SuggestionGenerator._generate_stress_suggestions`. -/
def stressSuggestions (now : String) (analysis : Analysis) : List Suggestion :=
  (if stressPercentage analysis > Thresholds.stress_team_percentage then
    (if stressPercentage analysis > 1/2 then
      [createSuggestion now .break_ 3 analysis (hsUserIds analysis)]
    else
      [createSuggestion now .breathing 2 analysis (hsUserIds analysis)])
  else []) ++
  (if 0 < analysis.high_stress_users.length then
    [createSuggestion now .check_in 2 analysis (hsUserIds analysis)]
  else [])

/-- Models `SuggestionGenerator._generate_energy_suggestions`. -/
def energySuggestions (now : String) (analysis : Analysis) : List Suggestion :=
  if analysis.low_energy_percentage > Thresholds.low_energy_percentage then
    [createSuggestion now .energizer 2 analysis (analysis.user_metrics.map (fun p => p.1))]
  else []

/-- Models `SuggestionGenerator._generate_support_suggestions`. -/
def supportSuggestions (now : String) (analysis : Analysis) : List Suggestion :=
  if analysis.negative_percentage > Thresholds.negative_emotions_percentage then
    [createSuggestion now .discussion 3 analysis (analysis.user_metrics.map (fun p => p.1))]
  else []

/-- Models `SuggestionGenerator._generate_stability_suggestions` (the
comparison `emotional_volatility > 0.5` of the source becomes a comparison
of the squared values, see module comment). -/
def stabilitySuggestions (now : String) (analysis : Analysis) : List Suggestion :=
  if analysis.emotional_volatility_sq > Thresholds.emotional_volatility ^ 2 then
    [createSuggestion now .restructure 2 analysis (analysis.user_metrics.map (fun p => p.1))]
  else []

/-- The per-user body of the `_generate_individual_suggestions` loop: skip
users not flagged `needs_attention`, otherwise the first matching rule of the
stress / neutral / volatility / negative cascade produces one suggestion. -/
def personalBranch (now : String) (user_id : Nat) (metrics : UserMetrics) :
    List Suggestion :=
  if metrics.needs_attention = false then []
  else if metrics.stress_level > Thresholds.individual_stress_high then
    [createPersonalSuggestion now
      (if metrics.stress_level > 4/5 then .personal_break else .stress_management)
      user_id metrics
      (if metrics.stress_level > 4/5 then 3 else 2)]
  else if metrics.neutral_percentage > Thresholds.individual_low_energy then
    [createPersonalSuggestion now .engagement_boost user_id metrics 2]
  else if metrics.emotional_volatility_sq > Thresholds.individual_volatility ^ 2 then
    [createPersonalSuggestion now .emotional_regulation user_id metrics 2]
  else if metrics.negative_percentage > Thresholds.individual_negative_high then
    [createPersonalSuggestion now .communication_adjustment user_id metrics 2]
  else []

/-- Models `SuggestionGenerator._generate_individual_suggestions`: iterate
`user_metrics` in dict order, collecting each user's (at most one)
suggestion. -/
def individualSuggestions (now : String) (analysis : Analysis) : List Suggestion :=
  analysis.user_metrics.flatMap (fun p => personalBranch now p.1 p.2)

/-- The duplicate-removal loop of `_prioritize_suggestions`: keep the first
occurrence of each `type`. -/
def dedupeAux (seen : List SugType) : List Suggestion → List Suggestion
  | [] => []
  | s :: rest =>
    if s.type ∈ seen then dedupeAux seen rest
    else s :: dedupeAux (seen ++ [s.type]) rest

/-- Removes later suggestions whose `type` already occurred. -/
def dedupeByType (l : List Suggestion) : List Suggestion := dedupeAux [] l

/-- One insertion step of a stable descending-by-priority sort, matching the
stable `list.sort(key=priority, reverse=True)` of the source. -/
def insertDesc (s : Suggestion) : List Suggestion → List Suggestion
  | [] => [s]
  | t :: ts => if t.priority > s.priority then t :: insertDesc s ts else s :: t :: ts

/-- Stable sort, descending by `priority` (equal priorities keep their
original relative order, as Python's stable sort does). -/
def sortDescPriority (l : List Suggestion) : List Suggestion :=
  l.foldr insertDesc []

/-- Models `SuggestionGenerator._prioritize_suggestions`: deduplicate by
type, then stable-sort descending by priority. -/
def prioritizeSuggestions (l : List Suggestion) : List Suggestion :=
  sortDescPriority (dedupeByType l)

/-- The candidate team-level suggestions accumulated by
`analyze_and_suggest` before the individual ones are appended. -/
def teamCandidates (now : String) (analysis : Analysis) : List Suggestion :=
  (if analysis.high_stress_users ≠ [] then stressSuggestions now analysis else []) ++
  (if analysis.low_energy_percentage > Thresholds.low_energy_percentage then
    energySuggestions now analysis
  else []) ++
  (if analysis.negative_percentage > Thresholds.negative_emotions_percentage then
    supportSuggestions now analysis
  else []) ++
  (if analysis.emotional_volatility_sq > Thresholds.emotional_volatility ^ 2 then
    stabilitySuggestions now analysis
  else [])

/-- Models `SuggestionGenerator.analyze_and_suggest` (the unused `session`
argument of the source is dropped; `now` is the wall-clock stamp used by the
suggestion constructors). -/
def analyzeAndSuggest (now : String) (emotions : List EmotionData) : List Suggestion :=
  if emotions = [] then []
  else
    let analysis := analyzeEmotions emotions
    let suggestions := teamCandidates now analysis ++ individualSuggestions now analysis
    let team_suggestions :=
      prioritizeSuggestions (suggestions.filter (fun s => !s.is_personal))
    let personal_suggestions := suggestions.filter (fun s => s.is_personal)
    team_suggestions.take 2 ++ personal_suggestions

/-- Whether some suggestion in the list has the given type. -/
def hasType (l : List Suggestion) (t : SugType) : Bool :=
  l.any (fun s => s.type == t)

/-- The team-level (non-personal) portion of the engine's output. -/
def teamPart (now : String) (emotions : List EmotionData) : List Suggestion :=
  (analyzeAndSuggest now emotions).filter (fun s => !s.is_personal)

/-- A single stressed observation of moderate intensity: the whole batch is
stressed (stress fraction 1 > 0.5) but the user's mean stressed intensity
(0.5) does not cross `individual_stress_high` (0.65), so
`high_stress_users` is empty. -/
def c1Batch : List EmotionData :=
  [{ user_id := 1, emotion_type := .stressed, intensity := 1/2, timestamp := 0 }]

/-- The per-user suggestion type dictated by the spec's precedence list
(stress, then neutral, then volatility, then negative); the final branch is
only reached by a flagged user when the negative condition holds. -/
def specPersonalType (m : UserMetrics) : SugType :=
  if Thresholds.individual_stress_high < m.stress_level then
    (if 4/5 < m.stress_level then .personal_break else .stress_management)
  else if Thresholds.individual_low_energy < m.neutral_percentage then .engagement_boost
  else if Thresholds.individual_volatility ^ 2 < m.emotional_volatility_sq then
    .emotional_regulation
  else .communication_adjustment

/-- The priority of the per-user suggestion dictated by the spec: 3 for
`personal_break` (stress above 0.8), 2 otherwise. -/
def specPersonalPriority (m : UserMetrics) : Nat :=
  if Thresholds.individual_stress_high < m.stress_level ∧ 4/5 < m.stress_level then 3
  else 2

/-- A batch with a single very stressed observation for user 1. -/
def c4Batch : List EmotionData :=
  [{ user_id := 1, emotion_type := .stressed, intensity := 9/10, timestamp := 0 }]

/-- The per-user metrics `_analyze_emotions` computes for user 1 of
`c4Batch`. -/
def c4Metrics : UserMetrics :=
  { stress_level := 9/10, negative_percentage := 1, neutral_percentage := 0,
    emotional_volatility_sq := 0, emotion_count := 1,
    dominant_emotion := .stressed, needs_attention := true }

/-- Replaces the wall-clock stamp of a suggestion by the empty string,
leaving every other field (including the whole trigger snapshot) intact. -/
def eraseTimestamp (s : Suggestion) : Suggestion := { s with timestamp := "" }

/-- Modelled from the spec's words ("population standard deviation"): the
square root of the population variance (denominator `n`, not `n - 1`) of a
list of values.  This is the comparison target for C7; the source itself
calls `statistics.stdev`, the sample standard deviation. -/
noncomputable def popStdevSpec (xs : List ℚ) : ℝ :=
  Real.sqrt (((xs.map (fun x => (x - listMean xs) ^ 2)).sum / (xs.length : ℚ) : ℚ) : ℝ)

/-- Two observations of the same user with intensities 0 and 1. -/
def c7Batch : List EmotionData :=
  [{ user_id := 1, emotion_type := .neutral, intensity := 0, timestamp := 0 },
   { user_id := 1, emotion_type := .neutral, intensity := 1, timestamp := 1 }]

/-- The per-user metrics `_analyze_emotions` computes for user 1 of
`c7Batch`: the stored squared volatility is the sample variance 1/2, not the
population variance 1/4. -/
def c7Metrics : UserMetrics :=
  { stress_level := 0, negative_percentage := 0, neutral_percentage := 1,
    emotional_volatility_sq := 1/2, emotion_count := 2,
    dominant_emotion := .neutral, needs_attention := true }

/-- Python's `round(q, d)` on exact rationals: round half to even at `d`
decimal digits. -/
def pyRound (q : ℚ) (d : Nat) : ℚ :=
  let m : ℚ := q * (10 : ℚ) ^ d
  let fl : ℤ := Int.floor m
  let fr : ℚ := m - fl
  let r : ℤ :=
    if fr < 1/2 then fl
    else if 1/2 < fr then fl + 1
    else if fl % 2 = 0 then fl else fl + 1
  (r : ℚ) / (10 : ℚ) ^ d

/-- One entry of the `emotion_journey` list of a reflection. -/
structure JourneyPoint where
  timestamp : ℚ
  emotion : EmotionType
  intensity : ℚ
deriving DecidableEq, Repr

/-- The `emotion_summary` sub-dict of a reflection.  The source reports
`emotional_stability = round(1 - statistics.stdev(intensities), 2)`; as the
standard deviation is an irrational square root, the embedding keeps the
underlying sample variance in `intensity_variance` (`stability = 1 -
sqrt intensity_variance`); every branch decision of the source depends on the
stability only through comparisons expressible on the variance. -/
structure EmotionSummary where
  total_emotions_tracked : Nat
  dominant_emotion : EmotionType
  emotion_distribution : List (EmotionType × ℚ)
  intensity_variance : ℚ
  average_intensity : ℚ
deriving DecidableEq, Repr

/-- The two result shapes of `generate_personal_reflection`: the early-return
"no data" dict (`has_data = False` plus a message) and the full reflection
(`has_data = True`). -/
inductive Reflection where
  | noData (user_id : Nat) (session_id : Nat) (message : String)
  | data (user_id : Nat) (session_id : Nat) (summary : EmotionSummary)
      (emotion_journey : List JourneyPoint) (insights : List String)
      (action_items : List String) (generated_at : String)
deriving DecidableEq, Repr

/-- One insertion step of a stable ascending sort by `timestamp`, matching
`sorted(user_emotions, key=lambda e: e.timestamp)`. -/
def insertByTime (e : EmotionData) : List EmotionData → List EmotionData
  | [] => [e]
  | t :: ts => if t.timestamp < e.timestamp then t :: insertByTime e ts else e :: t :: ts

/-- Stable sort of observations by timestamp, ascending. -/
def sortByTimestamp (es : List EmotionData) : List EmotionData :=
  es.foldr insertByTime []

/-- Models `SuggestionGenerator._generate_personal_insights`.  The stability
comparisons of the source (`1 - stdev > 0.8`, `1 - stdev < 0.5`) are
expressed on the sample variance (`var < (1/5)^2`, `var > (1/2)^2`), which is
equivalent (monotonicity of the square root).  The slice
`emotions[-len(emotions)//3:]` keeps the last `ceil(n/3)` elements because
`-n // 3` floors: it is modelled by `drop (n - (n + 2) / 3)`.  The source's
unused local `positive_emotions` list is omitted; its `negative_emotions`
list names exactly the sad/angry/stressed set of `isNegativeEmotion`. -/
def personalInsights (dominant_emotion : EmotionType)
    ( _emotion_distribution : List (EmotionType × ℚ)) (variance : ℚ)
    (emotions : List EmotionData) : List String :=
  (match dominant_emotion with
   | .happy =>
     ["You maintained a positive emotional state throughout most of the session, which likely contributed to a constructive atmosphere."]
   | .neutral =>
     ["You maintained a balanced emotional state during the session, which may indicate focused attention or reserved engagement."]
   | .stressed =>
     ["You experienced elevated stress levels during this session. Consider what specific topics or interactions triggered this response."]
   | .sad =>
     ["You expressed sadness during parts of this session. Reflecting on the causes may help address underlying concerns."]
   | .angry =>
     ["You experienced frustration or anger during this session. Consider what specific issues triggered these emotions and how they might be addressed constructively."]
   | _ => []) ++
  (if variance < (1/5) ^ 2 then
    ["Your emotions remained quite stable throughout the session, suggesting good emotional regulation."]
  else if (1/2) ^ 2 < variance then
    ["Your emotions fluctuated significantly during the session, which may indicate strong reactions to different discussion points."]
  else []) ++
  (if 3 ≤ emotions.length then
    (let first_third := emotions.take (emotions.length / 3)
     let last_third := emotions.drop (emotions.length - (emotions.length + 2) / 3)
     let first_negative_count :=
       (first_third.filter (fun e => isNegativeEmotion e.emotion_type)).length
     let last_negative_count :=
       (last_third.filter (fun e => isNegativeEmotion e.emotion_type)).length
     if last_negative_count < first_negative_count then
       ["Your emotional state appeared to improve as the session progressed, suggesting effective engagement or resolution of concerns."]
     else if first_negative_count < last_negative_count then
       ["Your emotional state appeared to decline as the session progressed, which might indicate growing concerns or fatigue."]
     else [])
  else []) ++
  (if 5 < emotions.length then
    ["Your consistent emotional tracking suggests active engagement throughout the session."]
  else if emotions.length < 3 then
    ["Limited emotional data was collected, which may indicate periods of disengagement or technical issues."]
  else [])

/-- Models `SuggestionGenerator._generate_personal_action_items` (the
stability comparison `1 - stdev < 0.5` is `var > (1/2)^2` on the
variance). -/
def personalActionItems (dominant_emotion : EmotionType)
    ( _emotion_distribution : List (EmotionType × ℚ)) (variance : ℚ) : List String :=
  ((match dominant_emotion with
    | .happy =>
      ["Share what aspects of the session you found most positive to help maintain this environment in future meetings."]
    | .neutral =>
      ["Reflect on what would increase your engagement and enthusiasm in future sessions."]
    | .stressed =>
      ["Identify specific stressors from this session and develop strategies to manage them in future meetings.",
       "Consider discussing workload or deadline concerns with your team lead if these were contributing factors."]
    | .sad =>
      ["Take time to process any disappointing news or outcomes from the session.",
       "Consider speaking with a team lead or trusted colleague about any concerns."]
    | .angry =>
      ["Identify specific triggers for your frustration and consider constructive ways to address these issues.",
       "Practice communication techniques that help express concerns without escalating tension."]
    | _ => []) ++
   (if (1/2) ^ 2 < variance then
     ["Practice mindfulness techniques to help maintain emotional balance during challenging discussions."]
   else []) ++
   ["Set a personal goal for how you want to feel and participate in the next session."]).take 3

/-- Models `SuggestionGenerator.generate_personal_reflection` (`now` is the
`generated_at` wall-clock stamp). -/
def generatePersonalReflection (now : String) (user_id : Nat) (session_id : Nat)
    (emotions : List EmotionData) : Reflection :=
  if emotions = [] then
    .noData user_id session_id
      "Not enough emotion data was collected to generate a reflection."
  else
    let user_emotions := emotions.filter (fun e => decide (e.user_id = user_id))
    if user_emotions = [] then
      .noData user_id session_id "No emotion data was collected for this user."
    else
      let emotion_counts := emotionCounts user_emotions
      let total_emotions := user_emotions.length
      let emotion_distribution :=
        emotion_counts.map (fun p => (p.1, ((p.2 : ℚ) / (total_emotions : ℚ)) * 100))
      let sorted_emotions := sortByTimestamp user_emotions
      let emotion_journey :=
        sorted_emotions.map (fun e => JourneyPoint.mk e.timestamp e.emotion_type e.intensity)
      let intensities := user_emotions.map (fun e => e.intensity)
      let variance := stdevSq intensities
      let dominant_emotion :=
        if emotion_counts ≠ [] then maxCountKey emotion_counts else .neutral
      .data user_id session_id
        { total_emotions_tracked := total_emotions
          dominant_emotion := dominant_emotion
          emotion_distribution := emotion_distribution
          intensity_variance := variance
          average_intensity := pyRound (listMean intensities) 2 }
        emotion_journey
        (personalInsights dominant_emotion emotion_distribution variance sorted_emotions)
        (personalActionItems dominant_emotion emotion_distribution variance)
        now

/-- The `metadata` sub-dict of a classification result
(`EmotionAnalyzer.analyze_text`): the success path carries the raw response
and an explanation, the fallback path carries the error string. -/
structure AnalysisMetadata where
  gemini_raw_response : Option String
  explanation : Option String
  error : Option String
  analysis_timestamp : String
  analyzer_version : String
deriving DecidableEq, Repr

/-- The dict returned by `EmotionAnalyzer.analyze_text`. -/
structure EmotionEstimate where
  emotion : String
  intensity : ℚ
  confidence : ℚ
  sentiment_score : ℚ
  all_emotions : List (String × ℚ)
  metadata : AnalysisMetadata
deriving DecidableEq, Repr

/-- The JSON object the external classifier is asked to produce; every key
may be absent (`parsed_json.get(..., default)` in the source). -/
structure ParsedEmotionJson where
  emotion : Option String := none
  intensity : Option ℚ := none
  confidence : Option ℚ := none
  sentiment_score : Option ℚ := none
  all_emotions_breakdown : Option (List (String × ℚ)) := none
  explanation : Option String := none
deriving DecidableEq, Repr

/-- The outcome of the external classification call, as observed by
`analyze_text`: the call raised, or it returned response text that either
parses as the expected JSON object (`some`) or is malformed (`none`, in
which case `json.loads` raises inside the same `try`). -/
inductive GeminiOutcome where
  | raised (msg : String)
  | returned (raw : String) (parsed : Option ParsedEmotionJson)
deriving DecidableEq, Repr

/-- The soft-fallback estimate built in the `except` branch of
`analyze_text`; `msg` models `str(e)`. -/
def fallbackEstimate (now msg : String) : EmotionEstimate :=
  { emotion := "neutral", intensity := 1/2, confidence := 1/10, sentiment_score := 0,
    all_emotions := [],
    metadata :=
      { gemini_raw_response := none, explanation := none, error := some msg,
        analysis_timestamp := now, analyzer_version := "Fallback-1.0" } }

/-- Models `EmotionAnalyzer.analyze_text`, parameterized by the outcome of
the external call (`now` is the metadata timestamp).  A total function: the
source catches every exception of the call/parse and returns the fallback. -/
def analyzeText (now : String) (outcome : GeminiOutcome) : EmotionEstimate :=
  match outcome with
  | .returned raw (some parsed_json) =>
    { emotion := parsed_json.emotion.getD "neutral"
      intensity := parsed_json.intensity.getD (1/2)
      confidence := parsed_json.confidence.getD (1/2)
      sentiment_score := parsed_json.sentiment_score.getD 0
      all_emotions := parsed_json.all_emotions_breakdown.getD [],
      metadata :=
        { gemini_raw_response := some raw,
          explanation := some (parsed_json.explanation.getD "No explanation provided."),
          error := none, analysis_timestamp := now,
          analyzer_version := "Gemini-1.0" } }
  | .returned _ none => fallbackEstimate now "Invalid JSON response"
  | .raised msg => fallbackEstimate now msg

/-- Whether the external call failed (raised, or returned malformed text). -/
def isClassifierFailure : GeminiOutcome → Bool
  | .raised _ => true
  | .returned _ none => true
  | .returned _ (some _) => false

/-- A JSON value as relevant to the submit endpoint's fields: a string, a
number, or JSON `null`. -/
inductive JsonVal where
  | str (s : String)
  | num (q : ℚ)
  | null
deriving DecidableEq, Repr

/-- Python truthiness of `data.get(field)`: absent keys and `None` are falsy,
the empty string is falsy, the number 0 is falsy. -/
def truthy : Option JsonVal → Bool
  | none => false
  | some .null => false
  | some (.str s) => decide (s ≠ "")
  | some (.num q) => decide (q ≠ 0)

/-- Models `EmotionType(value)` of `models/emotion.py`: the closed
string-to-enum map; any other value raises `ValueError` (`none`). -/
def emotionTypeOfVal : JsonVal → Option EmotionType
  | .str "happy" => some .happy
  | .str "sad" => some .sad
  | .str "angry" => some .angry
  | .str "fear" => some .fear
  | .str "surprise" => some .surprise
  | .str "disgust" => some .disgust
  | .str "neutral" => some .neutral
  | .str "stressed" => some .stressed
  | .str "excited" => some .excited
  | .str "confused" => some .confused
  | _ => none

/-- Models `AnalysisSource(data['source'])`. -/
def parseSourceVal : Option JsonVal → Option AnalysisSource
  | some (.str "text") => some .text
  | some (.str "voice") => some .voice
  | some (.str "facial") => some .facial
  | some (.str "manual") => some .manual
  | _ => none

/-- Parses a digit run to a natural number (`none` on empty or non-digit). -/
def parseDigits (cs : List Char) : Option Nat :=
  if cs = [] then none
  else
    cs.foldl
      (fun acc c =>
        match acc with
        | none => none
        | some n => if c.isDigit then some (n * 10 + (c.toNat - 48)) else none)
      (some 0)

/-- Models Python `float(s)` on plain decimal literals: optional sign, digits,
optional point and digits.  Other accepted Python syntax (exponents,
`inf`/`nan`, leading/trailing bare points, underscores) is treated as a
parse failure; a failure raises `ValueError` in the source, which the outer
handler converts to a 500. -/
def parseDecimal (s : String) : Option ℚ :=
  let cs := s.toList
  let signed : ℚ × List Char :=
    match cs with
    | '-' :: rest => (-1, rest)
    | '+' :: rest => (1, rest)
    | _ => (1, cs)
  let intPart := signed.2.takeWhile (fun c => c ≠ '.')
  let rest := signed.2.dropWhile (fun c => c ≠ '.')
  match rest with
  | [] => (parseDigits intPart).map (fun n => signed.1 * n)
  | _ :: frac =>
    if frac.any (fun c => c = '.') then none
    else
      match parseDigits intPart, parseDigits frac with
      | some n, some f =>
        some (signed.1 * ((n : ℚ) + (f : ℚ) / (10 : ℚ) ^ frac.length))
      | _, _ => none

/-- Models `float(x)` on the JSON value found in the payload. -/
def pyFloat : JsonVal → Option ℚ
  | .num q => some q
  | .str s => parseDecimal s
  | .null => none

/-- The `audio_features` sub-dict consumed by `analyze_voice`; each feature
defaults to 0.5 when absent. -/
structure AudioFeatures where
  pitch : Option ℚ := none
  energy : Option ℚ := none
  speaking_rate : Option ℚ := none
deriving DecidableEq, Repr

/-- The `facial_features` sub-dict consumed by `analyze_facial`. -/
structure FacialFeatures where
  smile : Option ℚ := none
  eyebrow_position : Option ℚ := none
  eye_openness : Option ℚ := none
deriving DecidableEq, Repr

/-- The part of an analysis-result dict that `submit_emotion` reads:
`emotion` (a raw JSON value in the manual path, a string otherwise),
`intensity` and `confidence`. -/
structure AnalysisResult where
  emotion : JsonVal
  intensity : ℚ
  confidence : ℚ
deriving DecidableEq, Repr

/-- Models `EmotionAnalyzer.analyze_voice`: a deterministic heuristic over
the three features, fixed confidence 0.7, intensity rounded to 3 digits. -/
def analyzeVoice (audio_features : AudioFeatures) : AnalysisResult :=
  let pitch := audio_features.pitch.getD (1/2)
  let energy := audio_features.energy.getD (1/2)
  let speaking_rate := audio_features.speaking_rate.getD (1/2)
  if energy > 4/5 ∧ pitch > 7/10 then
    { emotion := .str (if speaking_rate > 3/5 then "excited" else "happy"),
      intensity := pyRound (min energy (9/10)) 3, confidence := 7/10 }
  else if energy < 3/10 ∧ pitch < 2/5 then
    { emotion := .str "sad", intensity := pyRound (1 - energy) 3, confidence := 7/10 }
  else if speaking_rate > 4/5 ∧ energy > 3/5 then
    { emotion := .str "stressed", intensity := pyRound (speaking_rate * (4/5)) 3,
      confidence := 7/10 }
  else
    { emotion := .str "neutral", intensity := pyRound (1/2) 3, confidence := 7/10 }

/-- Models `EmotionAnalyzer.analyze_facial`: fixed confidence 0.8. -/
def analyzeFacial (facial_features : FacialFeatures) : AnalysisResult :=
  let smile_score := facial_features.smile.getD (1/2)
  let eyebrow_position := facial_features.eyebrow_position.getD (1/2)
  let eye_openness := facial_features.eye_openness.getD (1/2)
  if smile_score > 7/10 then
    { emotion := .str "happy", intensity := pyRound smile_score 3, confidence := 4/5 }
  else if eyebrow_position < 3/10 ∧ eye_openness < 2/5 then
    { emotion := .str "sad", intensity := pyRound (1 - eye_openness) 3, confidence := 4/5 }
  else if eyebrow_position < 1/5 then
    { emotion := .str "angry", intensity := pyRound (1 - eyebrow_position) 3,
      confidence := 4/5 }
  else
    { emotion := .str "neutral", intensity := pyRound (1/2) 3, confidence := 4/5 }

/-- The JSON body of a POST to `/submit`, restricted to the fields the
endpoint reads. -/
structure SubmitPayload where
  content : Option JsonVal := none
  source : Option JsonVal := none
  session_id : Option JsonVal := none
  emotion_type : Option JsonVal := none
  intensity : Option JsonVal := none
  context : Option JsonVal := none
  audio_features : AudioFeatures := {}
  facial_features : FacialFeatures := {}
deriving Repr

/-- The externals of one `submit_emotion` request: the outcome of the text
classifier call, whether `Session.query.get` finds the referenced session,
and the computed session timestamp (`None` when the session has no
`actual_start`). -/
structure SubmitCtx where
  textOutcome : GeminiOutcome
  sessionExists : Bool
  sessionTimestamp : Option Int
  now : String
deriving Repr

/-- The stored `EmotionData` row fields as set by `submit_emotion`
(`raw_data` and `analysis_metadata` are persisted too but read by no claim
and omitted). -/
structure CreatedEmotion where
  user_id : Nat
  session_id : Option JsonVal
  emotion_type : EmotionType
  intensity : ℚ
  confidence : ℚ
  source : AnalysisSource
  session_timestamp : Option Int
  context : Option JsonVal
deriving DecidableEq, Repr

/-- The HTTP-visible result of `submit_emotion`: a JSON error with a status
code, or a 201 with the created record. -/
inductive SubmitResult where
  | rejected (status : Nat) (errorMsg : String)
  | created (e : CreatedEmotion)
deriving DecidableEq, Repr

/-- Models `submit_emotion` of `modules/emotion_monitor/routes.py`.  Notable
modelled details of the source: required-field and manual-field presence are
tested by truthiness (`if not data.get(...)`); the 404 session check runs
before the manual validation; and when no truthy `session_id` was supplied
the local variable `session` is never assigned, so the later
`if session and session.actual_start:` raises `UnboundLocalError`, which the
outer `except` converts into a 500 — a record can only ever be created for a
request carrying a truthy `session_id` naming an existing session. -/
def submitEmotion (ctx : SubmitCtx) (current_user_id : Nat)
    (data : SubmitPayload) : SubmitResult :=
  if truthy data.content = false then .rejected 400 "content is required"
  else if truthy data.source = false then .rejected 400 "source is required"
  else
    match parseSourceVal data.source with
    | none => .rejected 400 "Invalid source type"
    | some source =>
      if truthy data.session_id = true ∧ ctx.sessionExists = false then
        .rejected 404 "Session not found"
      else
        match (match source with
          | .text =>
            let est := analyzeText ctx.now ctx.textOutcome
            Except.ok
              { emotion := JsonVal.str est.emotion,
                intensity := est.intensity, confidence := est.confidence }
          | .voice => Except.ok (analyzeVoice data.audio_features)
          | .facial => Except.ok (analyzeFacial data.facial_features)
          | .manual =>
            if truthy data.emotion_type = false ∨ truthy data.intensity = false then
              Except.error
                (SubmitResult.rejected 400
                  "emotion_type and intensity required for manual input")
            else
              match pyFloat (data.intensity.getD .null) with
              | none => Except.error (SubmitResult.rejected 500 "Failed to record emotion")
              | some q =>
                Except.ok
                  { emotion := data.emotion_type.getD .null,
                    intensity := q, confidence := 1 } :
            Except SubmitResult AnalysisResult) with
        | .error r => r
        | .ok analysis_result =>
          match emotionTypeOfVal analysis_result.emotion with
          | none => .rejected 400 "Invalid emotion type detected"
          | some emotion_type =>
            if truthy data.session_id = false then
              .rejected 500 "Failed to record emotion"
            else
              .created
                { user_id := current_user_id, session_id := data.session_id,
                  emotion_type := emotion_type,
                  intensity := analysis_result.intensity,
                  confidence := analysis_result.confidence, source := source,
                  session_timestamp := ctx.sessionTimestamp,
                  context := data.context }

/-- Externals for a manual submission: classifier offline (unused), the
referenced session exists and is active. -/
def c2Ctx : SubmitCtx :=
  { textOutcome := .raised "offline", sessionExists := true,
    sessionTimestamp := some 10, now := "t" }

/-- A manual submission with intensity 7 — far outside the documented
`[0, 1]` range of the `EmotionData.intensity` column. -/
def c2Payload : SubmitPayload :=
  { content := some (.str "deadline panic"), source := some (.str "manual"),
    session_id := some (.num 1), emotion_type := some (.str "happy"),
    intensity := some (.num 7) }

/-- A manual submission whose intensity field is the STRING "0": truthy (a
non-empty string), so it passes the presence check, and `float("0")` is
0.0. -/
def c10Payload : SubmitPayload :=
  { content := some (.str "calm"), source := some (.str "manual"),
    session_id := some (.num 1), emotion_type := some (.str "happy"),
    intensity := some (.str "0") }

/-- The squared standard deviation is nonnegative. -/
theorem stdevSq_nonneg (xs : List ℚ) : 0 ≤ stdevSq xs := by
  unfold stdevSq
  split
  · unfold sampleVariance
    apply div_nonneg
    · apply List.sum_nonneg
      intro x hx
      obtain ⟨y, _, rfl⟩ := List.mem_map.mp hx
      positivity
    · have : (2 : ℚ) ≤ (xs.length : ℚ) := by exact_mod_cast (by omega : 2 ≤ xs.length)
      linarith
  · exact le_refl 0

/-- Bridge between the source's comparison `stdev > c` and the embedding's
comparison `var > c ^ 2`: for a nonnegative threshold `c` and nonnegative
variance `v`, `Real.sqrt v > c` iff `v > c ^ 2`. -/
theorem real_sqrt_gt_iff (v c : ℚ) (hc : 0 ≤ c) :
    (c : ℝ) < Real.sqrt (v : ℝ) ↔ (c : ℚ) ^ 2 < v := by
  rw [Real.lt_sqrt (by exact_mod_cast hc)]
  constructor
  · intro h
    exact_mod_cast h
  · intro h
    exact_mod_cast h

/-- C8: Aggregating an empty observation batch returns all-zero statistics
(all counts 0, all percentage fields 0, emotional volatility 0, average
intensity 0), an empty per-user metrics map, and an empty high-stress-users
list; the aggregation is a total function, so no exception is possible. -/
theorem c8_empty_batch :
    analyzeEmotions [] =
      { total_emotions := 0
        unique_users := 0
        stress_count := 0
        negative_count := 0
        neutral_count := 0
        negative_percentage := 0
        low_energy_percentage := 0
        high_stress_users := []
        emotional_volatility_sq := 0
        average_intensity := 0
        user_metrics := [] } := by
  decide

@[simp] theorem createSuggestion_type (now ty p a us) :
    (createSuggestion now ty p a us).type = ty := rfl

@[simp] theorem createSuggestion_priority (now ty p a us) :
    (createSuggestion now ty p a us).priority = p := rfl

@[simp] theorem createSuggestion_is_personal (now ty p a us) :
    (createSuggestion now ty p a us).is_personal = false := rfl

@[simp] theorem createSuggestion_user_id (now ty p a us) :
    (createSuggestion now ty p a us).user_id = none := rfl

@[simp] theorem createPersonalSuggestion_type (now ty u m p) :
    (createPersonalSuggestion now ty u m p).type = ty := rfl

@[simp] theorem createPersonalSuggestion_priority (now ty u m p) :
    (createPersonalSuggestion now ty u m p).priority = p := rfl

@[simp] theorem createPersonalSuggestion_is_personal (now ty u m p) :
    (createPersonalSuggestion now ty u m p).is_personal = true := rfl

@[simp] theorem createPersonalSuggestion_user_id (now ty u m p) :
    (createPersonalSuggestion now ty u m p).user_id = some u := rfl

theorem mem_insertDesc {x s : Suggestion} {l : List Suggestion} :
    x ∈ insertDesc s l ↔ x = s ∨ x ∈ l := by
  induction l with
  | nil => simp [insertDesc]
  | cons t ts ih =>
    unfold insertDesc
    split
    · rw [List.mem_cons, ih, List.mem_cons]
      tauto
    · rw [List.mem_cons]

theorem insertDesc_perm (s : Suggestion) (l : List Suggestion) :
    List.Perm (insertDesc s l) (s :: l) := by
  induction l with
  | nil => exact List.Perm.refl _
  | cons t ts ih =>
    unfold insertDesc
    split
    · exact (List.Perm.cons t ih).trans (List.Perm.swap s t ts)
    · exact List.Perm.refl _

theorem sortDescPriority_perm (l : List Suggestion) :
    List.Perm (sortDescPriority l) l := by
  induction l with
  | nil => exact List.Perm.refl _
  | cons t ts ih =>
    exact (insertDesc_perm t (ts.foldr insertDesc [])).trans (List.Perm.cons t ih)

theorem dedupeAux_sublist (seen : List SugType) (l : List Suggestion) :
    (dedupeAux seen l).Sublist l := by
  induction l generalizing seen with
  | nil => simp [dedupeAux]
  | cons s rest ih =>
    unfold dedupeAux
    split
    · exact (ih seen).trans (List.sublist_cons_self s rest)
    · exact (ih (seen ++ [s.type])).cons₂ s

theorem mem_of_mem_prioritize {x : Suggestion} {l : List Suggestion}
    (h : x ∈ prioritizeSuggestions l) : x ∈ l := by
  have h1 : x ∈ dedupeByType l :=
    (sortDescPriority_perm (dedupeByType l)).mem_iff.mp h
  exact (dedupeAux_sublist [] l).mem h1

theorem dedupeAux_type_not_seen (seen : List SugType) (l : List Suggestion) :
    ∀ x ∈ dedupeAux seen l, x.type ∉ seen := by
  induction l generalizing seen with
  | nil => simp [dedupeAux]
  | cons s rest ih =>
    intro x hx
    unfold dedupeAux at hx
    split at hx
    · exact ih seen x hx
    · rcases List.mem_cons.mp hx with rfl | hx
      · assumption
      · have h2 := ih (seen ++ [s.type]) x hx
        intro hc
        exact h2 (List.mem_append_left _ hc)

theorem dedupeAux_types_pairwise (seen : List SugType) (l : List Suggestion) :
    (dedupeAux seen l).Pairwise (fun a b => a.type ≠ b.type) := by
  induction l generalizing seen with
  | nil => simp [dedupeAux]
  | cons s rest ih =>
    unfold dedupeAux
    split
    · exact ih seen
    · refine List.Pairwise.cons ?_ (ih (seen ++ [s.type]))
      intro y hy heq
      have h2 := dedupeAux_type_not_seen (seen ++ [s.type]) rest y hy
      exact h2 (List.mem_append_right _ (by simp [heq]))

theorem insertDesc_sorted {s : Suggestion} {l : List Suggestion}
    (h : l.Pairwise (fun a b => b.priority ≤ a.priority)) :
    (insertDesc s l).Pairwise (fun a b => b.priority ≤ a.priority) := by
  induction l with
  | nil => simp [insertDesc]
  | cons t ts ih =>
    rw [List.pairwise_cons] at h
    unfold insertDesc
    split
    · refine List.Pairwise.cons ?_ (ih h.2)
      intro y hy
      rcases mem_insertDesc.mp hy with rfl | hy
      · omega
      · exact h.1 y hy
    · refine List.Pairwise.cons ?_ (List.Pairwise.cons h.1 h.2)
      intro y hy
      rcases List.mem_cons.mp hy with rfl | hy
      · omega
      · have h2 := h.1 y hy
        omega

theorem sortDescPriority_sorted (l : List Suggestion) :
    (sortDescPriority l).Pairwise (fun a b => b.priority ≤ a.priority) := by
  induction l with
  | nil => simp [sortDescPriority]
  | cons t ts ih => exact insertDesc_sorted ih

theorem prioritize_types_pairwise (l : List Suggestion) :
    (prioritizeSuggestions l).Pairwise (fun a b => a.type ≠ b.type) := by
  have hd := dedupeAux_types_pairwise [] l
  have hp := sortDescPriority_perm (dedupeByType l)
  exact (List.Perm.pairwise_iff (fun h => Ne.symm h) hp).mpr hd

theorem prioritize_sorted (l : List Suggestion) :
    (prioritizeSuggestions l).Pairwise (fun a b => b.priority ≤ a.priority) :=
  sortDescPriority_sorted (dedupeByType l)

theorem stressSuggestions_not_personal (now : String) (a : Analysis) :
    ∀ s ∈ stressSuggestions now a, s.is_personal = false := by
  intro s hs
  unfold stressSuggestions at hs
  rw [List.mem_append] at hs
  rcases hs with h | h <;> (repeat' split at h) <;> simp_all

theorem teamCandidates_not_personal (now : String) (a : Analysis) :
    ∀ s ∈ teamCandidates now a, s.is_personal = false := by
  intro s hs
  unfold teamCandidates at hs
  simp only [List.mem_append] at hs
  rcases hs with ((h | h) | h) | h
  · split at h
    · exact stressSuggestions_not_personal now a s h
    · simp at h
  · unfold energySuggestions at h
    (repeat' split at h) <;> simp_all
  · unfold supportSuggestions at h
    (repeat' split at h) <;> simp_all
  · unfold stabilitySuggestions at h
    (repeat' split at h) <;> simp_all

theorem individualSuggestions_personal (now : String) (a : Analysis) :
    ∀ s ∈ individualSuggestions now a, s.is_personal = true := by
  intro s hs
  unfold individualSuggestions at hs
  obtain ⟨p, _, hp⟩ := List.mem_flatMap.mp hs
  unfold personalBranch at hp
  (repeat' split at hp) <;> simp_all

theorem analyzeAndSuggest_decomp (now : String) (es : List EmotionData)
    (h : es ≠ []) :
    analyzeAndSuggest now es =
      (prioritizeSuggestions (teamCandidates now (analyzeEmotions es))).take 2 ++
        individualSuggestions now (analyzeEmotions es) := by
  unfold analyzeAndSuggest
  rw [if_neg h]
  have h1 : (teamCandidates now (analyzeEmotions es) ++
      individualSuggestions now (analyzeEmotions es)).filter (fun s => !s.is_personal) =
      teamCandidates now (analyzeEmotions es) := by
    rw [List.filter_append, List.filter_eq_self.mpr, List.filter_eq_nil_iff.mpr,
      List.append_nil]
    · intro s hs
      simp [individualSuggestions_personal now _ s hs]
    · intro s hs
      simp [teamCandidates_not_personal now _ s hs]
  have h2 : (teamCandidates now (analyzeEmotions es) ++
      individualSuggestions now (analyzeEmotions es)).filter (fun s => s.is_personal) =
      individualSuggestions now (analyzeEmotions es) := by
    rw [List.filter_append, List.filter_eq_nil_iff.mpr, List.filter_eq_self.mpr,
      List.nil_append]
    · intro s hs
      simp [individualSuggestions_personal now _ s hs]
    · intro s hs
      simp [teamCandidates_not_personal now _ s hs]
  simp only [h1, h2]

theorem teamPart_eq (now : String) (es : List EmotionData) (h : es ≠ []) :
    teamPart now es =
      (prioritizeSuggestions (teamCandidates now (analyzeEmotions es))).take 2 := by
  unfold teamPart
  rw [analyzeAndSuggest_decomp now es h, List.filter_append]
  rw [List.filter_eq_self.mpr, List.filter_eq_nil_iff.mpr, List.append_nil]
  · intro s hs
    simp [individualSuggestions_personal now _ s hs]
  · intro s hs
    have h2 : s ∈ prioritizeSuggestions (teamCandidates now (analyzeEmotions es)) :=
      List.mem_of_mem_take hs
    simp [teamCandidates_not_personal now _ s (mem_of_mem_prioritize h2)]

/-- C3: for every batch, the team (non-personal) portion of the output of
`analyze_and_suggest` has at most 2 entries, contains no two entries of the
same type, and is sorted in descending priority; the personal suggestions
(the untruncated output of `_generate_individual_suggestions`) are appended
after it. -/
theorem c3_team_output_shape (now : String) (es : List EmotionData) :
    (teamPart now es).length ≤ 2 ∧
    (teamPart now es).Pairwise (fun a b => a.type ≠ b.type) ∧
    (teamPart now es).Pairwise (fun a b => b.priority ≤ a.priority) ∧
    analyzeAndSuggest now es =
      teamPart now es ++ individualSuggestions now (analyzeEmotions es) := by
  by_cases h : es = []
  · subst h
    refine ⟨?_, ?_, ?_, ?_⟩ <;>
      simp [teamPart, analyzeAndSuggest, individualSuggestions, analyzeEmotions,
        usersInOrder]
  · refine ⟨?_, ?_, ?_, ?_⟩
    · rw [teamPart_eq now es h]
      exact List.length_take_le 2 _
    · rw [teamPart_eq now es h]
      exact (prioritize_types_pairwise _).sublist (List.take_sublist 2 _)
    · rw [teamPart_eq now es h]
      exact (prioritize_sorted _).sublist (List.take_sublist 2 _)
    · rw [teamPart_eq now es h, analyzeAndSuggest_decomp now es h]

/-- C1 is refuted by `c1Batch`: its stress fraction exceeds 0.5, yet the team
output contains no `break` suggestion, because
`_generate_stress_suggestions` is only invoked when `high_stress_users` is
non-empty. -/
theorem c1_counterexample :
    1/2 < stressPercentage (analyzeEmotions c1Batch) ∧
    hasType (teamPart "t" c1Batch) .break_ = false := by
  constructor
  · norm_num [stressPercentage, analyzeEmotions, c1Batch, usersInOrder, insertUser]
  · simp [teamPart, analyzeAndSuggest, analyzeEmotions, c1Batch, usersInOrder, insertUser,
      userEmotions, metricsFor, stdevSq, sampleVariance, listMean, dominantEmotion,
      emotionCounts, bumpCount, maxCountKey, Thresholds.individual_stress_high,
      Thresholds.individual_negative_high, Thresholds.individual_low_energy,
      Thresholds.individual_volatility, Thresholds.stress_team_percentage,
      Thresholds.low_energy_percentage, Thresholds.negative_emotions_percentage,
      Thresholds.emotional_volatility, teamCandidates, stressSuggestions,
      energySuggestions, supportSuggestions, stabilitySuggestions, stressPercentage,
      hsUserIds, individualSuggestions, personalBranch, prioritizeSuggestions,
      dedupeByType, dedupeAux, sortDescPriority, insertDesc, hasType, isNegativeEmotion]
    norm_num
    simp [dedupeAux, insertDesc, hasType]

set_option maxHeartbeats 3200000 in
/-- C1 (amended): the team-level output contains a `break` suggestion iff the
batch has a non-empty `high_stress_users` list AND the stress fraction
exceeds 0.5; it contains `breathing` iff `high_stress_users` is non-empty AND
the stress fraction lies in (0.3, 0.5]; it never contains both.  (The claim
as frozen omits the `high_stress_users` gate.) -/
theorem c1_stress_suggestion_gating (now : String) (es : List EmotionData) :
    (hasType (teamPart now es) .break_ = true ↔
      ((analyzeEmotions es).high_stress_users ≠ [] ∧
        1/2 < stressPercentage (analyzeEmotions es))) ∧
    (hasType (teamPart now es) .breathing = true ↔
      ((analyzeEmotions es).high_stress_users ≠ [] ∧
        Thresholds.stress_team_percentage < stressPercentage (analyzeEmotions es) ∧
        stressPercentage (analyzeEmotions es) ≤ 1/2)) ∧
    ¬(hasType (teamPart now es) .break_ = true ∧
      hasType (teamPart now es) .breathing = true) := by
  by_cases hne : es = []
  · subst hne
    refine ⟨?_, ?_, ?_⟩ <;>
      simp [teamPart, analyzeAndSuggest, hasType, analyzeEmotions, usersInOrder]
  · rw [teamPart_eq now es hne]
    by_cases hsu : (analyzeEmotions es).high_stress_users = [] <;>
      by_cases h2 : stressPercentage (analyzeEmotions es) > Thresholds.stress_team_percentage <;>
      by_cases h1 : stressPercentage (analyzeEmotions es) > 1/2 <;>
      by_cases hle : (analyzeEmotions es).low_energy_percentage > Thresholds.low_energy_percentage <;>
      by_cases hneg : (analyzeEmotions es).negative_percentage > Thresholds.negative_emotions_percentage <;>
      by_cases hvol : (analyzeEmotions es).emotional_volatility_sq > Thresholds.emotional_volatility ^ 2 <;>
      refine ⟨?_, ?_, ?_⟩ <;>
      (first
        | (exfalso
           have hc : Thresholds.stress_team_percentage = 3/10 := rfl
           rw [hc] at h2
           linarith)
        | (simp [teamCandidates, stressSuggestions, energySuggestions,
            supportSuggestions, stabilitySuggestions, prioritizeSuggestions,
            dedupeByType, dedupeAux, sortDescPriority, insertDesc, hasType,
            List.length_pos, -one_div,
            hsu, h2, h1, hle, hneg, hvol] <;>
            linarith))

theorem insertUser_nodup {acc : List Nat} (u : Nat) (h : acc.Nodup) :
    (insertUser acc u).Nodup := by
  unfold insertUser
  split
  · exact h
  · rw [List.nodup_append]
    exact ⟨h, List.nodup_singleton u, by simp_all⟩

theorem usersInOrder_nodup (es : List EmotionData) : (usersInOrder es).Nodup := by
  unfold usersInOrder
  suffices hgen : ∀ acc : List Nat, acc.Nodup →
      (es.foldl (fun acc e => insertUser acc e.user_id) acc).Nodup by
    exact hgen [] List.nodup_nil
  induction es with
  | nil => intro acc h; exact h
  | cons e rest ih =>
    intro acc h
    exact ih (insertUser acc e.user_id) (insertUser_nodup e.user_id h)

theorem lookup_map_self {f : Nat → UserMetrics} {l : List Nat} {u : Nat}
    {m : UserMetrics} (h : (l.map (fun v => (v, f v))).lookup u = some m) :
    u ∈ l ∧ m = f u := by
  induction l with
  | nil => simp at h
  | cons v rest ih =>
    simp only [List.map_cons, List.lookup] at h
    by_cases hv : u = v
    · subst hv
      simp at h
      simp [h]
    · have hbeq : (u == v) = false := by simpa using hv
      simp only [hbeq] at h
      have h2 := ih h
      exact ⟨List.mem_cons_of_mem v h2.1, h2.2⟩

theorem lookup_user_metrics {es : List EmotionData} {u : Nat} {m : UserMetrics}
    (h : (analyzeEmotions es).user_metrics.lookup u = some m) :
    m = metricsFor (userEmotions es u) := by
  unfold analyzeEmotions at h
  exact (lookup_map_self h).2

theorem personalBranch_user_id (now : String) (v : Nat) (mm : UserMetrics) :
    ∀ s ∈ personalBranch now v mm, s.user_id = some v := by
  intro s hs
  unfold personalBranch at hs
  (repeat' split at hs) <;> simp_all

theorem teamCandidates_user_id_none (now : String) (a : Analysis) :
    ∀ s ∈ teamCandidates now a, s.user_id = none := by
  intro s hs
  unfold teamCandidates at hs
  simp only [List.mem_append] at hs
  rcases hs with ((h | h) | h) | h
  · split at h
    · unfold stressSuggestions at h
      rw [List.mem_append] at h
      rcases h with h | h <;> (repeat' split at h) <;> simp_all
    · simp at h
  · unfold energySuggestions at h
    (repeat' split at h) <;> simp_all
  · unfold supportSuggestions at h
    (repeat' split at h) <;> simp_all
  · unfold stabilitySuggestions at h
    (repeat' split at h) <;> simp_all

theorem filter_flatMap_personal (now : String) (L : List (Nat × UserMetrics))
    (u : Nat) (hnd : (L.map Prod.fst).Nodup) :
    (L.flatMap (fun p => personalBranch now p.1 p.2)).filter
        (fun s => decide (s.user_id = some u)) =
      (match L.lookup u with
       | some m => personalBranch now u m
       | none => []) := by
  induction L with
  | nil => simp
  | cons p rest ih =>
    obtain ⟨v, mv⟩ := p
    rw [List.map_cons, List.nodup_cons] at hnd
    rw [List.flatMap_cons, List.filter_append]
    by_cases hv : u = v
    · subst hv
      have h1 : (personalBranch now u mv).filter
          (fun s => decide (s.user_id = some u)) = personalBranch now u mv := by
        rw [List.filter_eq_self]
        intro s hs
        simp [personalBranch_user_id now u mv s hs]
      have h2 : (rest.flatMap (fun p => personalBranch now p.1 p.2)).filter
          (fun s => decide (s.user_id = some u)) = [] := by
        rw [List.filter_eq_nil_iff]
        intro s hs
        obtain ⟨q, hq, hsq⟩ := List.mem_flatMap.mp hs
        have h3 := personalBranch_user_id now q.1 q.2 s hsq
        have h4 : q.1 ∈ rest.map Prod.fst := List.mem_map_of_mem Prod.fst hq
        simp only [h3, decide_eq_true_eq, Option.some.injEq]
        intro heq
        exact hnd.1 (heq ▸ h4)
      rw [h1, h2, List.append_nil]
      simp [List.lookup]
    · have h1 : (personalBranch now v mv).filter
          (fun s => decide (s.user_id = some u)) = [] := by
        rw [List.filter_eq_nil_iff]
        intro s hs
        have h3 := personalBranch_user_id now v mv s hs
        simp only [h3, decide_eq_true_eq, Option.some.injEq]
        intro heq
        exact hv heq.symm
      rw [h1, List.nil_append, ih hnd.2]
      have hbeq : (u == v) = false := by simpa using hv
      simp [List.lookup, hbeq]

theorem filter_flatMap_personal_some (now : String)
    (L : List (Nat × UserMetrics)) (u : Nat) (m : UserMetrics)
    (hnd : (L.map Prod.fst).Nodup) (h : L.lookup u = some m) :
    (L.flatMap (fun p => personalBranch now p.1 p.2)).filter
        (fun s => decide (s.user_id = some u)) = personalBranch now u m := by
  have h2 := filter_flatMap_personal now L u hnd
  rw [h] at h2
  simpa using h2

theorem metricsFor_attention (ues : List EmotionData) :
    (metricsFor ues).needs_attention = true ↔
      (Thresholds.individual_stress_high < (metricsFor ues).stress_level ∨
       Thresholds.individual_negative_high < (metricsFor ues).negative_percentage ∨
       Thresholds.individual_low_energy < (metricsFor ues).neutral_percentage ∨
       Thresholds.individual_volatility ^ 2 < (metricsFor ues).emotional_volatility_sq) := by
  simp only [metricsFor]
  split_ifs <;> simp_all

/-- C4: a user `u` present in the per-user metrics receives, in the final
output of `analyze_and_suggest`, exactly one personal suggestion when flagged
`needs_attention` — the one dictated by the precedence order stress (with
`personal_break` priority 3 above 0.8, else `stress_management` priority 2),
then neutral percentage (`engagement_boost`), then volatility
(`emotional_regulation`), then negative percentage
(`communication_adjustment`) — and none when not flagged. -/
theorem c4_personal_precedence (now : String) (es : List EmotionData) (u : Nat)
    (m : UserMetrics)
    (h : (analyzeEmotions es).user_metrics.lookup u = some m) :
    (analyzeAndSuggest now es).filter (fun s => decide (s.user_id = some u)) =
      (if m.needs_attention = true then
        [createPersonalSuggestion now (specPersonalType m) u m (specPersonalPriority m)]
      else []) := by
  have hne : es ≠ [] := by
    intro he
    subst he
    simp [analyzeEmotions, usersInOrder] at h
  rw [analyzeAndSuggest_decomp now es hne, List.filter_append]
  have hteam : ((prioritizeSuggestions (teamCandidates now (analyzeEmotions es))).take 2).filter
      (fun s => decide (s.user_id = some u)) = [] := by
    rw [List.filter_eq_nil_iff]
    intro s hs
    have h2 : s ∈ teamCandidates now (analyzeEmotions es) :=
      mem_of_mem_prioritize (List.mem_of_mem_take hs)
    simp [teamCandidates_user_id_none now _ s h2]
  rw [hteam, List.nil_append]
  unfold individualSuggestions
  have hnd : ((analyzeEmotions es).user_metrics.map Prod.fst).Nodup := by
    have heq : (analyzeEmotions es).user_metrics =
        (usersInOrder es).map (fun v => (v, metricsFor (userEmotions es v))) := rfl
    have heq2 : (analyzeEmotions es).user_metrics.map Prod.fst = usersInOrder es := by
      rw [heq, List.map_map]
      simp [Function.comp_def]
    rw [heq2]
    exact usersInOrder_nodup es
  rw [filter_flatMap_personal_some now _ u m hnd h]
  have hm : m = metricsFor (userEmotions es u) := lookup_user_metrics h
  by_cases hna : m.needs_attention = true
  · rw [if_pos hna]
    have h4 := (metricsFor_attention (userEmotions es u)).mp (hm ▸ hna)
    rw [← hm] at h4
    unfold personalBranch specPersonalType specPersonalPriority
    rw [if_neg (show ¬(m.needs_attention = false) by simp [hna])]
    by_cases hc1 : Thresholds.individual_stress_high < m.stress_level
    · by_cases hc2 : 4/5 < m.stress_level
      · simp only [if_pos hc1, if_pos hc2, if_pos (And.intro hc1 hc2)]
      · simp only [if_pos hc1, if_neg hc2,
          if_neg (fun hc : _ ∧ _ => hc2 hc.2)]
    · simp only [if_neg hc1, if_neg (fun hc : _ ∧ _ => hc1 hc.1)]
      by_cases hc3 : Thresholds.individual_low_energy < m.neutral_percentage
      · simp only [if_pos hc3]
      · simp only [if_neg hc3]
        by_cases hc4 : Thresholds.individual_volatility ^ 2 < m.emotional_volatility_sq
        · simp only [if_pos hc4]
        · simp only [if_neg hc4]
          have hc5 : Thresholds.individual_negative_high < m.negative_percentage := by
            tauto
          simp only [if_pos hc5]
  · rw [if_neg hna]
    unfold personalBranch
    rw [if_pos (show m.needs_attention = false by simpa using hna)]

theorem c4_personal_precedence_witness :
    (analyzeAndSuggest "t" c4Batch).filter (fun s => decide (s.user_id = some 1)) =
      [createPersonalSuggestion "t" .personal_break 1 c4Metrics 3] := by
  have hlookup : (analyzeEmotions c4Batch).user_metrics.lookup 1 = some c4Metrics := by
    simp [analyzeEmotions, c4Batch, usersInOrder, insertUser, userEmotions, metricsFor,
      stdevSq, sampleVariance, listMean, dominantEmotion, emotionCounts, bumpCount,
      maxCountKey, isNegativeEmotion, c4Metrics, List.lookup,
      Thresholds.individual_stress_high, Thresholds.individual_negative_high,
      Thresholds.individual_low_energy, Thresholds.individual_volatility]
    norm_num
  have happ := c4_personal_precedence "t" c4Batch 1 c4Metrics hlookup
  rw [happ]
  have hna : c4Metrics.needs_attention = true := rfl
  rw [if_pos hna]
  have ht : specPersonalType c4Metrics = .personal_break := by
    simp [specPersonalType, c4Metrics, Thresholds.individual_stress_high]
    norm_num
  have hp : specPersonalPriority c4Metrics = 3 := by
    simp [specPersonalPriority, c4Metrics, Thresholds.individual_stress_high]
    norm_num
  rw [ht, hp]

theorem eraseTimestamp_createSuggestion (now ty p a us) :
    eraseTimestamp (createSuggestion now ty p a us) = createSuggestion "" ty p a us := rfl

theorem eraseTimestamp_createPersonalSuggestion (now ty u m p) :
    eraseTimestamp (createPersonalSuggestion now ty u m p) =
      createPersonalSuggestion "" ty u m p := rfl

@[simp] theorem eraseTimestamp_type (s : Suggestion) :
    (eraseTimestamp s).type = s.type := rfl

@[simp] theorem eraseTimestamp_priority (s : Suggestion) :
    (eraseTimestamp s).priority = s.priority := rfl

@[simp] theorem eraseTimestamp_is_personal (s : Suggestion) :
    (eraseTimestamp s).is_personal = s.is_personal := rfl

theorem stressSuggestions_erase (now : String) (a : Analysis) :
    (stressSuggestions now a).map eraseTimestamp = stressSuggestions "" a := by
  unfold stressSuggestions
  split_ifs <;> simp [eraseTimestamp_createSuggestion]

theorem energySuggestions_erase (now : String) (a : Analysis) :
    (energySuggestions now a).map eraseTimestamp = energySuggestions "" a := by
  unfold energySuggestions
  split_ifs <;> simp [eraseTimestamp_createSuggestion]

theorem supportSuggestions_erase (now : String) (a : Analysis) :
    (supportSuggestions now a).map eraseTimestamp = supportSuggestions "" a := by
  unfold supportSuggestions
  split_ifs <;> simp [eraseTimestamp_createSuggestion]

theorem stabilitySuggestions_erase (now : String) (a : Analysis) :
    (stabilitySuggestions now a).map eraseTimestamp = stabilitySuggestions "" a := by
  unfold stabilitySuggestions
  split_ifs <;> simp [eraseTimestamp_createSuggestion]

theorem teamCandidates_erase (now : String) (a : Analysis) :
    (teamCandidates now a).map eraseTimestamp = teamCandidates "" a := by
  unfold teamCandidates
  split_ifs <;>
    simp [stressSuggestions_erase, energySuggestions_erase, supportSuggestions_erase,
      stabilitySuggestions_erase]

theorem personalBranch_erase (now : String) (u : Nat) (m : UserMetrics) :
    (personalBranch now u m).map eraseTimestamp = personalBranch "" u m := by
  unfold personalBranch
  split_ifs <;> simp [eraseTimestamp_createPersonalSuggestion]

theorem individualSuggestions_erase (now : String) (a : Analysis) :
    (individualSuggestions now a).map eraseTimestamp = individualSuggestions "" a := by
  unfold individualSuggestions
  induction a.user_metrics with
  | nil => simp
  | cons p rest ih =>
    simp only [List.flatMap_cons, List.map_append, ih]
    rw [personalBranch_erase]

theorem dedupeAux_erase (seen : List SugType) (l : List Suggestion) :
    dedupeAux seen (l.map eraseTimestamp) = (dedupeAux seen l).map eraseTimestamp := by
  induction l generalizing seen with
  | nil => simp [dedupeAux]
  | cons s rest ih =>
    simp only [List.map_cons]
    unfold dedupeAux
    simp only [eraseTimestamp_type]
    split
    · exact ih seen
    · simp only [List.map_cons, ih (seen ++ [s.type])]

theorem insertDesc_erase (s : Suggestion) (l : List Suggestion) :
    insertDesc (eraseTimestamp s) (l.map eraseTimestamp) =
      (insertDesc s l).map eraseTimestamp := by
  induction l with
  | nil => simp [insertDesc]
  | cons t ts ih =>
    simp only [List.map_cons]
    unfold insertDesc
    simp only [eraseTimestamp_priority]
    split
    · simp only [List.map_cons, ih]
    · simp only [List.map_cons]

theorem sortDescPriority_erase (l : List Suggestion) :
    sortDescPriority (l.map eraseTimestamp) = (sortDescPriority l).map eraseTimestamp := by
  induction l with
  | nil => simp [sortDescPriority]
  | cons t ts ih =>
    unfold sortDescPriority at *
    simp only [List.map_cons, List.foldr_cons, ih]
    exact insertDesc_erase t (ts.foldr insertDesc [])

theorem prioritize_erase (l : List Suggestion) :
    prioritizeSuggestions (l.map eraseTimestamp) =
      (prioritizeSuggestions l).map eraseTimestamp := by
  unfold prioritizeSuggestions dedupeByType
  rw [dedupeAux_erase, sortDescPriority_erase]

theorem analyzeAndSuggest_erase (now : String) (es : List EmotionData) :
    (analyzeAndSuggest now es).map eraseTimestamp = analyzeAndSuggest "" es := by
  by_cases hne : es = []
  · subst hne
    simp [analyzeAndSuggest]
  · rw [analyzeAndSuggest_decomp now es hne, analyzeAndSuggest_decomp "" es hne]
    rw [List.map_append, List.map_take, ← prioritize_erase, teamCandidates_erase,
      individualSuggestions_erase]

/-- C6 is refuted on the code as frozen: the same batch evaluated at two
different wall-clock instants yields suggestion lists that differ (in their
`timestamp` field), so re-running the evaluation does not produce
byte-identical output. -/
theorem c6_counterexample :
    analyzeAndSuggest "t1" c1Batch ≠ analyzeAndSuggest "t2" c1Batch := by
  intro h
  have h2 := congrArg (List.map (fun s => s.timestamp)) h
  have e1 : (analyzeAndSuggest "t1" c1Batch).map (fun s => s.timestamp) =
      ["t1", "t1"] := by
    simp [analyzeAndSuggest, analyzeEmotions, c1Batch, usersInOrder, insertUser,
      userEmotions, metricsFor, stdevSq, sampleVariance, listMean, dominantEmotion,
      emotionCounts, bumpCount, maxCountKey, isNegativeEmotion,
      Thresholds.individual_stress_high, Thresholds.individual_negative_high,
      Thresholds.individual_low_energy, Thresholds.individual_volatility,
      Thresholds.stress_team_percentage, Thresholds.low_energy_percentage,
      Thresholds.negative_emotions_percentage, Thresholds.emotional_volatility,
      teamCandidates, stressSuggestions, energySuggestions, supportSuggestions,
      stabilitySuggestions, stressPercentage, hsUserIds, individualSuggestions,
      personalBranch, prioritizeSuggestions, dedupeByType, dedupeAux,
      sortDescPriority, insertDesc, createSuggestion, createPersonalSuggestion]
    norm_num
    simp [dedupeAux, insertDesc, createSuggestion, createPersonalSuggestion]
  have e2 : (analyzeAndSuggest "t2" c1Batch).map (fun s => s.timestamp) =
      ["t2", "t2"] := by
    simp [analyzeAndSuggest, analyzeEmotions, c1Batch, usersInOrder, insertUser,
      userEmotions, metricsFor, stdevSq, sampleVariance, listMean, dominantEmotion,
      emotionCounts, bumpCount, maxCountKey, isNegativeEmotion,
      Thresholds.individual_stress_high, Thresholds.individual_negative_high,
      Thresholds.individual_low_energy, Thresholds.individual_volatility,
      Thresholds.stress_team_percentage, Thresholds.low_energy_percentage,
      Thresholds.negative_emotions_percentage, Thresholds.emotional_volatility,
      teamCandidates, stressSuggestions, energySuggestions, supportSuggestions,
      stabilitySuggestions, stressPercentage, hsUserIds, individualSuggestions,
      personalBranch, prioritizeSuggestions, dedupeByType, dedupeAux,
      sortDescPriority, insertDesc, createSuggestion, createPersonalSuggestion]
    norm_num
    simp [dedupeAux, insertDesc, createSuggestion, createPersonalSuggestion]
  rw [e1, e2] at h2
  simp at h2

/-- C6 (amended): re-running `analyze_and_suggest` on the identical batch is
deterministic in every field except the wall-clock `timestamp`: erasing that
one stamp makes the two outputs identical, entry by entry and field by field
(trigger snapshots, affected users, steps, priorities, types and all). -/
theorem c6_determinism_up_to_timestamp (t1 t2 : String) (es : List EmotionData) :
    (analyzeAndSuggest t1 es).map eraseTimestamp =
      (analyzeAndSuggest t2 es).map eraseTimestamp := by
  rw [analyzeAndSuggest_erase t1 es, analyzeAndSuggest_erase t2 es]

/-- C7 is refuted on intensities `[0, 1]`: the code's volatility
(`statistics.stdev`, i.e. the square root of the stored squared value 1/2) is
`sqrt 2⁻¹ ≈ 0.707`, while the population standard deviation of `[0, 1]` is
exactly 1/2. -/
theorem c7_counterexample :
    (analyzeEmotions c7Batch).user_metrics.lookup 1 = some c7Metrics ∧
    Real.sqrt ((c7Metrics.emotional_volatility_sq : ℚ) : ℝ) ≠ popStdevSpec [0, 1] := by
  constructor
  · simp [analyzeEmotions, c7Batch, usersInOrder, insertUser, userEmotions, metricsFor,
      stdevSq, sampleVariance, listMean, dominantEmotion, emotionCounts, bumpCount,
      maxCountKey, isNegativeEmotion, c7Metrics, List.lookup,
      Thresholds.individual_stress_high, Thresholds.individual_negative_high,
      Thresholds.individual_low_energy, Thresholds.individual_volatility]
    norm_num
  · have hq : ((([0, 1] : List ℚ).map (fun x => (x - listMean [0, 1]) ^ 2)).sum /
        (([0, 1] : List ℚ).length : ℚ)) = 1/4 := by
      norm_num [listMean]
    have hpop : popStdevSpec [0, 1] = 1/2 := by
      unfold popStdevSpec
      rw [hq]
      rw [show (((1 : ℚ)/4 : ℚ) : ℝ) = (1/2 : ℝ) ^ 2 by push_cast; norm_num]
      exact Real.sqrt_sq (by norm_num)
    rw [hpop]
    intro heq
    have hv : c7Metrics.emotional_volatility_sq = 1/2 := rfl
    have h2 : Real.sqrt ((c7Metrics.emotional_volatility_sq : ℚ) : ℝ) ^ 2 =
        ((c7Metrics.emotional_volatility_sq : ℚ) : ℝ) := by
      refine Real.sq_sqrt ?_
      rw [hv]
      push_cast
      norm_num
    rw [heq, hv] at h2
    push_cast at h2
    norm_num at h2

/-- C7 (amended): both the per-user and the team `emotional_volatility` are
the SAMPLE (Bessel-corrected, `n - 1` denominator) standard deviation of the
relevant intensities — the nonnegative real whose square times `n - 1` is the
sum of squared deviations from the mean — and 0 when fewer than 2 values are
present.  (The spec says population standard deviation, denominator `n`.) -/
theorem c7_sample_stdev (es : List EmotionData) (u : Nat) (m : UserMetrics)
    (h : (analyzeEmotions es).user_metrics.lookup u = some m) :
    (0 : ℝ) ≤ Real.sqrt ((m.emotional_volatility_sq : ℚ) : ℝ) ∧
    Real.sqrt ((m.emotional_volatility_sq : ℚ) : ℝ) ^ 2 =
      ((m.emotional_volatility_sq : ℚ) : ℝ) ∧
    (2 ≤ ((userEmotions es u).map (fun e => e.intensity)).length →
      m.emotional_volatility_sq *
          ((((userEmotions es u).map (fun e => e.intensity)).length : ℚ) - 1) =
        (((userEmotions es u).map (fun e => e.intensity)).map
          (fun x => (x - listMean ((userEmotions es u).map (fun e => e.intensity))) ^ 2)).sum) ∧
    (((userEmotions es u).map (fun e => e.intensity)).length < 2 →
      m.emotional_volatility_sq = 0) ∧
    (2 ≤ (es.map (fun e => e.intensity)).length →
      (analyzeEmotions es).emotional_volatility_sq *
          (((es.map (fun e => e.intensity)).length : ℚ) - 1) =
        ((es.map (fun e => e.intensity)).map
          (fun x => (x - listMean (es.map (fun e => e.intensity))) ^ 2)).sum) ∧
    ((es.map (fun e => e.intensity)).length < 2 →
      (analyzeEmotions es).emotional_volatility_sq = 0) := by
  have hm : m = metricsFor (userEmotions es u) := lookup_user_metrics h
  have hv : m.emotional_volatility_sq =
      stdevSq ((userEmotions es u).map (fun e => e.intensity)) := by
    rw [hm]
    rfl
  have hteam : (analyzeEmotions es).emotional_volatility_sq =
      stdevSq (es.map (fun e => e.intensity)) := rfl
  have hchar : ∀ xs : List ℚ,
      (2 ≤ xs.length → stdevSq xs * ((xs.length : ℚ) - 1) =
        (xs.map (fun x => (x - listMean xs) ^ 2)).sum) ∧
      (xs.length < 2 → stdevSq xs = 0) := by
    intro xs
    constructor
    · intro hlen
      unfold stdevSq
      rw [if_pos (by omega)]
      unfold sampleVariance
      have hne : ((xs.length : ℚ) - 1) ≠ 0 := by
        have h2 : (2 : ℚ) ≤ (xs.length : ℚ) := by exact_mod_cast hlen
        intro hc
        rw [sub_eq_zero] at hc
        rw [hc] at h2
        norm_num at h2
      field_simp
    · intro hlen
      unfold stdevSq
      rw [if_neg (by omega)]
  refine ⟨Real.sqrt_nonneg _, Real.sq_sqrt ?_, ?_, ?_, ?_, ?_⟩
  · rw [hv]
    exact_mod_cast stdevSq_nonneg _
  · rw [hv]
    exact (hchar _).1
  · rw [hv]
    exact (hchar _).2
  · rw [hteam]
    exact (hchar _).1
  · rw [hteam]
    exact (hchar _).2

theorem c7_sample_stdev_witness :
    c7Metrics.emotional_volatility_sq *
        ((((userEmotions c7Batch 1).map (fun e => e.intensity)).length : ℚ) - 1) =
      (((userEmotions c7Batch 1).map (fun e => e.intensity)).map
        (fun x => (x - listMean ((userEmotions c7Batch 1).map (fun e => e.intensity))) ^ 2)).sum := by
  have hlookup : (analyzeEmotions c7Batch).user_metrics.lookup 1 = some c7Metrics := by
    simp [analyzeEmotions, c7Batch, usersInOrder, insertUser, userEmotions, metricsFor,
      stdevSq, sampleVariance, listMean, dominantEmotion, emotionCounts, bumpCount,
      maxCountKey, isNegativeEmotion, c7Metrics, List.lookup,
      Thresholds.individual_stress_high, Thresholds.individual_negative_high,
      Thresholds.individual_low_energy, Thresholds.individual_volatility]
    norm_num
  exact (c7_sample_stdev c7Batch 1 c7Metrics hlookup).2.2.1
    (by simp [userEmotions, c7Batch])

/-- C9: on an empty observation list, or a list containing no observation of
the requested user, `generate_personal_reflection` returns the "no data"
reflection (a total function: it cannot raise); in the empty-list case the
message is exactly the documented one. -/
theorem c9_no_data_reflection (now : String) (user_id session_id : Nat)
    (obs : List EmotionData)
    (h : obs = [] ∨ obs.filter (fun e => decide (e.user_id = user_id)) = []) :
    (∃ msg : String, generatePersonalReflection now user_id session_id obs =
        .noData user_id session_id msg) ∧
    (obs = [] → generatePersonalReflection now user_id session_id obs =
        .noData user_id session_id
          "Not enough emotion data was collected to generate a reflection.") := by
  constructor
  · by_cases he : obs = []
    · exact ⟨"Not enough emotion data was collected to generate a reflection.",
        by simp [generatePersonalReflection, he]⟩
    · rcases h with h | h
      · exact absurd h he
      · refine ⟨"No emotion data was collected for this user.", ?_⟩
        unfold generatePersonalReflection
        rw [if_neg he, if_pos h]
  · intro he
    simp [generatePersonalReflection, he]

theorem c9_no_data_reflection_witness :
    generatePersonalReflection "t" 1 2 [] =
      .noData 1 2 "Not enough emotion data was collected to generate a reflection." :=
  (c9_no_data_reflection "t" 1 2 [] (Or.inl rfl)).2 rfl

/-- C5: whenever the external classification call raises or returns a
malformed (non-JSON) response, `analyze_text` returns (it cannot raise: it is
a total function of the outcome) the fallback estimate `{emotion: neutral,
intensity: 0.5, confidence: 0.1, sentiment_score: 0.0}` with an error marker
in its metadata. -/
theorem c5_text_fallback (now : String) (o : GeminiOutcome)
    (h : isClassifierFailure o = true) :
    (analyzeText now o).emotion = "neutral" ∧
    (analyzeText now o).intensity = 1/2 ∧
    (analyzeText now o).confidence = 1/10 ∧
    (analyzeText now o).sentiment_score = 0 ∧
    (analyzeText now o).metadata.error.isSome = true := by
  cases o with
  | raised msg => exact ⟨rfl, rfl, rfl, rfl, rfl⟩
  | returned raw parsed =>
    cases parsed with
    | none => exact ⟨rfl, rfl, rfl, rfl, rfl⟩
    | some p => simp [isClassifierFailure] at h

theorem c5_text_fallback_witness :
    (analyzeText "t" (.raised "connection refused")).emotion = "neutral" ∧
    (analyzeText "t" (.raised "connection refused")).intensity = 1/2 ∧
    (analyzeText "t" (.raised "connection refused")).confidence = 1/10 ∧
    (analyzeText "t" (.raised "connection refused")).sentiment_score = 0 ∧
    (analyzeText "t" (.raised "connection refused")).metadata.error.isSome = true :=
  c5_text_fallback "t" (.raised "connection refused") rfl

/-- C2 fails on the code: the submission path performs no clamping, so a
manual payload with intensity 7 creates an `EmotionData` record with
intensity 7, violating the `[0, 1]` invariant the claim (and the model's own
column comment `# 0.0 to 1.0`) states.  The emotion type, by contrast, is
genuinely validated against the closed enum. -/
theorem c2_unclamped_intensity :
    submitEmotion c2Ctx 1 c2Payload =
      .created
        { user_id := 1, session_id := some (.num 1), emotion_type := .happy,
          intensity := 7, confidence := 1, source := .manual,
          session_timestamp := some 10, context := none } ∧
    ¬((7 : ℚ) ≤ 1) := by
  constructor
  · rfl
  · norm_num

/-- C10's final clause ("a manual observation with intensity 0.0 can never
be created") is refuted: passing the intensity as the string "0" defeats the
truthiness check and creates a manual observation with intensity 0. -/
theorem c10_counterexample :
    submitEmotion c2Ctx 1 c10Payload =
      .created
        { user_id := 1, session_id := some (.num 1), emotion_type := .happy,
          intensity := 0, confidence := 1, source := .manual,
          session_timestamp := some 10, context := none } := by
  have step : submitEmotion c2Ctx 1 c10Payload =
      .created
        { user_id := 1, session_id := some (.num 1), emotion_type := .happy,
          intensity := 1 * ((0 : Nat) : ℚ), confidence := 1, source := .manual,
          session_timestamp := some 10, context := none } := rfl
  rw [step]
  norm_num

/-- C10 (amended): with an otherwise-acceptable manual request (truthy
content, source "manual", no failing session lookup), a payload whose
intensity is the number 0 or whose emotion_type is the empty string is
rejected with the documented validation error, because presence is tested by
truthiness; consequently no manual observation with intensity 0 can be
created from a NUMERIC intensity field — though a string such as "0" passes
truthiness and does create one (see the counterexample). -/
theorem c10_truthiness_gate (ctx : SubmitCtx) (uid : Nat) (data : SubmitPayload) :
    (truthy data.content = true → data.source = some (.str "manual") →
      ¬(truthy data.session_id = true ∧ ctx.sessionExists = false) →
      (data.intensity = some (.num 0) ∨ data.emotion_type = some (.str "")) →
      submitEmotion ctx uid data =
        .rejected 400 "emotion_type and intensity required for manual input") ∧
    (∀ q e, data.intensity = some (.num q) →
      data.source = some (.str "manual") →
      submitEmotion ctx uid data = .created e →
      e.intensity = q ∧ q ≠ 0) := by
  constructor
  · intro hc hs hsess h0
    rcases h0 with h0 | h0
    · simp [submitEmotion, hc, hs, h0, parseSourceVal, hsess,
        show truthy (some (JsonVal.num 0)) = false by norm_num [truthy],
        show truthy (some (JsonVal.str "manual")) = true from rfl]
    · simp [submitEmotion, hc, hs, h0, parseSourceVal, hsess,
        show truthy (some (JsonVal.str "")) = false from rfl,
        show truthy (some (JsonVal.str "manual")) = true from rfl]
  · intro q e hq hs hcr
    unfold submitEmotion at hcr
    simp only [hq, hs, parseSourceVal,
      show truthy (some (JsonVal.str "manual")) = true from rfl] at hcr
    by_cases h1 : truthy data.content = false
    · rw [if_pos h1] at hcr
      exact absurd hcr (by simp)
    rw [if_neg h1] at hcr
    simp only [show (true = false) = False by simp, if_false] at hcr
    by_cases h3 : truthy data.session_id = true ∧ ctx.sessionExists = false
    · rw [if_pos h3] at hcr
      exact absurd hcr (by simp)
    rw [if_neg h3] at hcr
    by_cases h5 : truthy data.emotion_type = false ∨
        truthy (some (JsonVal.num q)) = false
    · rw [if_pos h5] at hcr
      exact absurd hcr (by simp)
    rw [if_neg h5] at hcr
    have hq0 : q ≠ 0 := by
      rcases not_or.mp h5 with ⟨_, hi⟩
      intro hc
      exact hi (by simp [truthy, hc])
    simp only [Option.getD_some, pyFloat] at hcr
    rcases het : emotionTypeOfVal (data.emotion_type.getD JsonVal.null) with _ | et
    · rw [het] at hcr
      exact absurd hcr (by simp)
    · rw [het] at hcr
      have hcr2 : (if truthy data.session_id = false then
          SubmitResult.rejected 500 "Failed to record emotion"
        else
          SubmitResult.created
            { user_id := uid, session_id := data.session_id, emotion_type := et,
              intensity := q, confidence := 1, source := AnalysisSource.manual,
              session_timestamp := ctx.sessionTimestamp,
              context := data.context }) = SubmitResult.created e := hcr
      by_cases h4 : truthy data.session_id = false
      · rw [if_pos h4] at hcr2
        exact absurd hcr2 (by simp)
      · rw [if_neg h4] at hcr2
        have he := (SubmitResult.created.injEq _ _).mp hcr2
        refine ⟨?_, hq0⟩
        rw [← he]

theorem c10_truthiness_gate_witness :
    submitEmotion c2Ctx 1
      { content := some (.str "x"), source := some (.str "manual"),
        session_id := none, emotion_type := some (.str "happy"),
        intensity := some (.num 0) } =
      .rejected 400 "emotion_type and intensity required for manual input" :=
  (c10_truthiness_gate c2Ctx 1 _).1 rfl rfl (by simp [truthy]) (Or.inl rfl)
